import Mathlib

/-!
Shallow embedding of `context-err-derive/src/lib.rs`: the attribute
processor `derive_context_err`, its argument parser (the darling-derived
`FromMeta` implementation for `Args`), and the two unimplemented
derivation routines `derive_for_enum` and `derive_for_struct`.

Modelling conventions:
- a proc-macro `TokenStream` output is modelled by the `TokenStream`
  inductive, distinguishing the three shapes the skeleton can build:
  darling error tokens (`err.write_errors()`), a spanned
  `compile_error!` invocation, and (for completeness of the model)
  ordinary generated code;
- a `todo!()` panic aborts macro expansion; since a Lean function must
  be total, the observable behaviour of a call is modelled by
  `ProcOutcome`: either the function returns a token stream
  (`ProcOutcome.returns`) or it panics (`ProcOutcome.panics`);
- the inputs to `derive_context_err` are taken after the two
  `parse_macro_input!` calls succeeded, i.e. as an already syn-parsed
  `AttributeArgs` (a list of nested meta items) and `Item`.
-/

namespace ContextErr

/-- A source span (proc-macro `Span`), identified abstractly. -/
structure Span where
  pos : Nat
deriving DecidableEq, Repr

/-- A literal inside attribute arguments (the fragment of `syn::Lit`
relevant to this macro). -/
inductive Lit where
  | str (s : String)
  | int (n : Int)
  | boolLit (b : Bool)
deriving DecidableEq, Repr

/-- One element of `syn::AttributeArgs`: a `key = value` pair, a bare
path (word), or a bare literal. -/
inductive NestedMeta where
  | nameValue (key : String) (value : Lit)
  | word (key : String)
  | lit (value : Lit)
deriving DecidableEq, Repr

/-- `struct Args { #[darling(rename = "trait")] trait_: Option<String> }`:
the configuration parsed from the attribute arguments, with the single
optional field `trait`. -/
structure Args where
  trait_ : Option String
deriving DecidableEq, Repr

/-- The error value darling accumulates while parsing: a list of error
messages (darling collects every error before reporting). -/
abbrev DarlingError := List String

/-- `<String as FromMeta>::from_value`: a string literal yields its
value unchanged (no identifier validation); any other literal kind is
an error. -/
def stringFromLit : Lit → Except String String
  | .str s => Except.ok s
  | _ => Except.error "unexpected literal type"

/-- One step of the darling-derived field loop for `Args`: fold state is
(the `trait` field seen so far, the errors accumulated so far). -/
def argsStep (acc : Option String × List String) (m : NestedMeta) :
    Option String × List String :=
  match m with
  | .nameValue "trait" v =>
    match acc.1, stringFromLit v with
    | some _, _ => (acc.1, acc.2 ++ ["duplicate field trait"])
    | none, Except.ok s => (some s, acc.2)
    | none, Except.error e => (none, acc.2 ++ [e])
  | .nameValue k _ => (acc.1, acc.2 ++ ["unknown field " ++ k])
  | .word "trait" => (acc.1, acc.2 ++ ["unexpected meta-item format"])
  | .word k => (acc.1, acc.2 ++ ["unknown field " ++ k])
  | .lit _ => (acc.1, acc.2 ++ ["unexpected literal"])

/-- `Args::from_list` (darling-derived `FromMeta::from_list`): walk the
nested meta items; an absent `trait` field is valid because the field
has type `Option<String>`; any accumulated error makes the whole parse
fail with the collected messages. -/
def Args.from_list (metas : List NestedMeta) : Except DarlingError Args :=
  let r := metas.foldl argsStep (none, [])
  if r.2.isEmpty then Except.ok ⟨r.1⟩ else Except.error r.2

/-- `syn::ItemEnum`, reduced to the data the skeleton observes. -/
structure ItemEnum where
  name : String
  span : Span
deriving DecidableEq, Repr

/-- `syn::ItemStruct`, reduced to the data the skeleton observes. -/
structure ItemStruct where
  name : String
  span : Span
deriving DecidableEq, Repr

/-- Any other `syn::Item` variant (fn, mod, ...): the skeleton only
uses its span. -/
structure ItemOther where
  span : Span
deriving DecidableEq, Repr

/-- `syn::Item`, folded to the three cases `derive_context_err`
distinguishes: `Item::Enum`, `Item::Struct`, and everything else. -/
inductive Item where
  | enumItem (i : ItemEnum)
  | structItem (i : ItemStruct)
  | other (i : ItemOther)
deriving DecidableEq, Repr

/-- `item.span()` on the modelled `syn::Item`. -/
def Item.span : Item → Span
  | .enumItem i => i.span
  | .structItem i => i.span
  | .other i => i.span

/-- The token stream a run of the skeleton can produce: darling error
tokens (`err.write_errors()`), a `quote_spanned!` `compile_error!`
diagnostic, or generated code. -/
inductive TokenStream where
  | darlingErrors (e : DarlingError)
  | compileError (msg : String) (span : Span)
  | generated (code : String)
deriving DecidableEq, Repr

/-- Observable behaviour of one proc-macro call: a normal return with a
token stream, or a panic (`todo!()`), which aborts macro expansion. -/
inductive ProcOutcome where
  | returns (ts : TokenStream)
  | panics (msg : String)
deriving DecidableEq, Repr

/-- `fn derive_for_enum(args: Args, item: ItemEnum) -> TokenStream`:
body is `todo!()`, which panics with this message unconditionally. -/
def derive_for_enum (_args : Args) (_item : ItemEnum) : ProcOutcome :=
  ProcOutcome.panics "not yet implemented"

/-- `fn derive_for_struct(args: Args, item: ItemStruct) -> TokenStream`:
body is `todo!()`, which panics with this message unconditionally. -/
def derive_for_struct (_args : Args) (_item : ItemStruct) : ProcOutcome :=
  ProcOutcome.panics "not yet implemented"

/-- `derive_context_err`, after the two `parse_macro_input!` calls:
parse the arguments with `Args::from_list`, returning the darling error
tokens on failure; otherwise dispatch on the item kind, with a spanned
`compile_error!` diagnostic for anything that is neither an enum nor a
struct. -/
def derive_context_err (attr_args : List NestedMeta) (item : Item) :
    ProcOutcome :=
  match Args.from_list attr_args with
  | Except.error err => ProcOutcome.returns (TokenStream.darlingErrors err)
  | Except.ok args =>
    match item with
    | .enumItem i => derive_for_enum args i
    | .structItem i => derive_for_struct args i
    | .other i =>
      ProcOutcome.returns
        (TokenStream.compileError "this macro only works for structs and enums"
          i.span)

/-- C1: on a valid struct or enum declaration with well-formed
arguments, the attribute processor aborts macro expansion
unconditionally (a `todo!()` panic) and never returns generated code
(never returns any token stream at all). -/
theorem derive_aborts_on_struct_or_enum (metas : List NestedMeta) (item : Item)
    (a : Args) (hargs : Args.from_list metas = Except.ok a)
    (hkind : (∃ e, item = Item.enumItem e) ∨ (∃ s, item = Item.structItem s)) :
    derive_context_err metas item = ProcOutcome.panics "not yet implemented" ∧
      ∀ ts, derive_context_err metas item ≠ ProcOutcome.returns ts := by
  rcases hkind with ⟨e, rfl⟩ | ⟨s, rfl⟩ <;>
    simp [derive_context_err, hargs, derive_for_enum, derive_for_struct]

/-- C1 witness: the empty argument list parses, and on a concrete enum
the processor panics with the `todo!()` message. -/
theorem derive_aborts_on_struct_or_enum_witness :
    derive_context_err [] (Item.enumItem ⟨"E", ⟨0⟩⟩) =
        ProcOutcome.panics "not yet implemented" ∧
      ∀ ts, derive_context_err [] (Item.enumItem ⟨"E", ⟨0⟩⟩) ≠
        ProcOutcome.returns ts :=
  derive_aborts_on_struct_or_enum [] _ ⟨none⟩ rfl (Or.inl ⟨_, rfl⟩)

/-- C2: on an item that is neither a struct nor an enum, with arguments
that parse, the output is exactly the `compile_error!` diagnostic
"this macro only works for structs and enums" anchored at the item
span, and no code is generated. -/
theorem derive_rejects_other_items (metas : List NestedMeta) (i : ItemOther)
    (a : Args) (hargs : Args.from_list metas = Except.ok a) :
    derive_context_err metas (Item.other i) =
      ProcOutcome.returns
        (TokenStream.compileError "this macro only works for structs and enums"
          i.span) := by
  simp [derive_context_err, hargs]

/-- C2 witness: concrete non-struct, non-enum item at span 3 with the
empty (well-formed) argument list. -/
theorem derive_rejects_other_items_witness :
    derive_context_err [] (Item.other ⟨⟨3⟩⟩) =
      ProcOutcome.returns
        (TokenStream.compileError "this macro only works for structs and enums"
          ⟨3⟩) :=
  derive_rejects_other_items [] ⟨⟨3⟩⟩ ⟨none⟩ rfl

/-- C3: when the arguments fail to parse into `Args`, the output is the
darling error token stream (`err.write_errors()`), and neither
derivation routine runs: in particular the call does not panic. -/
theorem derive_emits_parser_diagnostic (metas : List NestedMeta) (item : Item)
    (e : DarlingError) (herr : Args.from_list metas = Except.error e) :
    derive_context_err metas item =
        ProcOutcome.returns (TokenStream.darlingErrors e) ∧
      ∀ msg, derive_context_err metas item ≠ ProcOutcome.panics msg := by
  simp [derive_context_err, herr]

/-- C3 witness: an unknown key makes `Args::from_list` fail, and the
processor returns those error tokens even on an enum item. -/
theorem derive_emits_parser_diagnostic_witness :
    derive_context_err [NestedMeta.nameValue "unknown" (Lit.str "x")]
          (Item.enumItem ⟨"E", ⟨0⟩⟩) =
        ProcOutcome.returns (TokenStream.darlingErrors ["unknown field unknown"]) ∧
      ∀ msg, derive_context_err [NestedMeta.nameValue "unknown" (Lit.str "x")]
          (Item.enumItem ⟨"E", ⟨0⟩⟩) ≠ ProcOutcome.panics msg :=
  derive_emits_parser_diagnostic _ _ ["unknown field unknown"] rfl

/-- C4: `Args` has the single optional field `trait`; on the empty
argument list, parsing succeeds and the field is absent (`none`). -/
theorem args_empty_list_defaults : Args.from_list [] = Except.ok ⟨none⟩ := rfl

/-- C5: the two specified error paths return normally with a diagnostic
token stream, and they are the only paths on which the processor
returns at all: every normal return carries either the darling
diagnostic of a failed argument parse or the unsupported-item
`compile_error!` diagnostic. -/
theorem error_paths_recoverable (metas : List NestedMeta) (item : Item) :
    ((∃ e, Args.from_list metas = Except.error e) ∨
        (∃ i, item = Item.other i) →
      ∃ ts, derive_context_err metas item = ProcOutcome.returns ts) ∧
    (∀ ts, derive_context_err metas item = ProcOutcome.returns ts →
      (∃ e, Args.from_list metas = Except.error e ∧
          ts = TokenStream.darlingErrors e) ∨
      (∃ i, item = Item.other i ∧
        ts = TokenStream.compileError
          "this macro only works for structs and enums" i.span)) := by
  constructor
  · rintro (⟨e, herr⟩ | ⟨i, rfl⟩)
    · exact ⟨TokenStream.darlingErrors e, by simp [derive_context_err, herr]⟩
    · rcases h : Args.from_list metas with e | a
      · exact ⟨TokenStream.darlingErrors e, by simp [derive_context_err, h]⟩
      · exact ⟨TokenStream.compileError
            "this macro only works for structs and enums" i.span,
          by simp [derive_context_err, h]⟩
  · intro ts hts
    rcases h : Args.from_list metas with e | a
    · left
      refine ⟨e, rfl, ?_⟩
      simp only [derive_context_err, h] at hts
      exact (ProcOutcome.returns.injEq _ _ ▸ hts).symm
    · right
      cases item with
      | enumItem i =>
        simp [derive_context_err, h, derive_for_enum] at hts
      | structItem i =>
        simp [derive_context_err, h, derive_for_struct] at hts
      | other i =>
        refine ⟨i, rfl, ?_⟩
        simp only [derive_context_err, h] at hts
        exact (ProcOutcome.returns.injEq _ _ ▸ hts).symm

/-- C5 witness: instance at the empty argument list and a concrete
non-struct, non-enum item. -/
theorem error_paths_recoverable_witness :
    ((∃ e, Args.from_list [] = Except.error e) ∨
        (∃ i, Item.other ⟨⟨1⟩⟩ = Item.other i) →
      ∃ ts, derive_context_err [] (Item.other ⟨⟨1⟩⟩) =
        ProcOutcome.returns ts) ∧
    (∀ ts, derive_context_err [] (Item.other ⟨⟨1⟩⟩) =
        ProcOutcome.returns ts →
      (∃ e, Args.from_list [] = Except.error e ∧
          ts = TokenStream.darlingErrors e) ∨
      (∃ i, Item.other ⟨⟨1⟩⟩ = Item.other i ∧
        ts = TokenStream.compileError
          "this macro only works for structs and enums" i.span)) :=
  error_paths_recoverable [] (Item.other ⟨⟨1⟩⟩)

/-- C6: argument parsing runs before item classification, so on
malformed arguments the darling diagnostic is the output for every item
kind, the output does not depend on the item at all, and the
unsupported-item `compile_error!` diagnostic is never produced. -/
theorem config_error_preempts_dispatch (metas : List NestedMeta)
    (e : DarlingError) (herr : Args.from_list metas = Except.error e)
    (item item' : Item) :
    derive_context_err metas item =
        ProcOutcome.returns (TokenStream.darlingErrors e) ∧
      derive_context_err metas item = derive_context_err metas item' ∧
      ∀ msg sp, derive_context_err metas item ≠
        ProcOutcome.returns (TokenStream.compileError msg sp) := by
  simp [derive_context_err, herr]

/-- C6 witness: an unknown key yields the same darling diagnostic on an
enum item and on a non-struct, non-enum item. -/
theorem config_error_preempts_dispatch_witness :
    derive_context_err [NestedMeta.word "wrong"] (Item.enumItem ⟨"E", ⟨0⟩⟩) =
        ProcOutcome.returns (TokenStream.darlingErrors ["unknown field wrong"]) ∧
      derive_context_err [NestedMeta.word "wrong"] (Item.enumItem ⟨"E", ⟨0⟩⟩) =
        derive_context_err [NestedMeta.word "wrong"] (Item.other ⟨⟨7⟩⟩) ∧
      ∀ msg sp, derive_context_err [NestedMeta.word "wrong"]
          (Item.enumItem ⟨"E", ⟨0⟩⟩) ≠
        ProcOutcome.returns (TokenStream.compileError msg sp) :=
  config_error_preempts_dispatch [NestedMeta.word "wrong"]
    ["unknown field wrong"] rfl (Item.enumItem ⟨"E", ⟨0⟩⟩) (Item.other ⟨⟨7⟩⟩)

/-- C7: dispatch is by declaration kind: with arguments that parse to
`a`, an enum item goes to `derive_for_enum a` and a struct item goes to
`derive_for_struct a`, each applied to the parsed configuration and the
item. -/
theorem dispatch_by_item_kind (metas : List NestedMeta) (a : Args)
    (hok : Args.from_list metas = Except.ok a) :
    (∀ e, derive_context_err metas (Item.enumItem e) = derive_for_enum a e) ∧
      ∀ s, derive_context_err metas (Item.structItem s) =
        derive_for_struct a s := by
  constructor <;> intro x <;> simp [derive_context_err, hok]

/-- C7 witness: dispatch at the empty argument list on concrete enum
and struct items. -/
theorem dispatch_by_item_kind_witness :
    (∀ e, derive_context_err [] (Item.enumItem e) =
        derive_for_enum ⟨none⟩ e) ∧
      ∀ s, derive_context_err [] (Item.structItem s) =
        derive_for_struct ⟨none⟩ s :=
  dispatch_by_item_kind [] ⟨none⟩ rfl

/-- C8: the processor is a pure function of its two inputs: identical
raw arguments and identical items give identical outcomes; the model
carries no state between invocations. -/
theorem derive_deterministic (m₁ m₂ : List NestedMeta) (i₁ i₂ : Item)
    (hm : m₁ = m₂) (hi : i₁ = i₂) :
    derive_context_err m₁ i₁ = derive_context_err m₂ i₂ := by
  rw [hm, hi]

/-- C8 witness: the congruence at a concrete repeated invocation. -/
theorem derive_deterministic_witness :
    derive_context_err [] (Item.other ⟨⟨2⟩⟩) =
      derive_context_err [] (Item.other ⟨⟨2⟩⟩) :=
  derive_deterministic [] [] (Item.other ⟨⟨2⟩⟩) (Item.other ⟨⟨2⟩⟩) rfl rfl

/-- C9: on a non-struct, non-enum item, the diagnostic does not depend
on the parsed configuration: any two argument lists that both parse
give the same output for the same item. -/
theorem unsupported_diag_config_independent (m₁ m₂ : List NestedMeta)
    (a₁ a₂ : Args) (h₁ : Args.from_list m₁ = Except.ok a₁)
    (h₂ : Args.from_list m₂ = Except.ok a₂) (i : ItemOther) :
    derive_context_err m₁ (Item.other i) =
      derive_context_err m₂ (Item.other i) := by
  simp [derive_context_err, h₁, h₂]

/-- C9 witness: the empty argument list and `trait = "Foo"` produce the
same unsupported-item diagnostic for the same item. -/
theorem unsupported_diag_config_independent_witness :
    derive_context_err [] (Item.other ⟨⟨5⟩⟩) =
      derive_context_err [NestedMeta.nameValue "trait" (Lit.str "Foo")]
        (Item.other ⟨⟨5⟩⟩) :=
  unsupported_diag_config_independent []
    [NestedMeta.nameValue "trait" (Lit.str "Foo")] ⟨none⟩ ⟨some "Foo"⟩
    rfl rfl ⟨⟨5⟩⟩

/-- C10: the value of `trait` is never validated as an identifier: any
string literal is accepted and stored verbatim, producing a successful
parse, never a configuration error. -/
theorem trait_value_not_validated (s : String) :
    Args.from_list [NestedMeta.nameValue "trait" (Lit.str s)] =
      Except.ok ⟨some s⟩ := rfl

/-- C10 witness: a value that is not a legal identifier still parses. -/
theorem trait_value_not_validated_witness :
    Args.from_list [NestedMeta.nameValue "trait" (Lit.str "not an ident!")] =
      Except.ok ⟨some "not an ident!"⟩ :=
  trait_value_not_validated "not an ident!"

end ContextErr
